import Mathlib

/-!
Verification of the flower-garden rendering core.

The definitions below are a shallow embedding of the TypeScript source:
`src/components/flower-scene.tsx` (seeded RNG, petal layout, wind animation,
vertical placement of planted flowers, camera controller) and
`src/lib/flower-storage.ts` (record normalization on fetch, plant-time
position adjustment).  JavaScript numbers are modelled as real numbers where
the code uses transcendental functions (`Math.sin`, `Math.cos`, `Math.PI`)
and as rationals where the code only uses field arithmetic, `Math.max` and
comparisons, so that those definitions stay executable.
-/

namespace FlowerGarden

/-- Embeds `createRandomGenerator` (flower-scene.tsx, lines 216-221):
`const x = Math.sin(seed + seedOffset) * 10000; return min + (x - Math.floor(x)) * (max - min)`.
The returned closure is applied as `random min max seedOffset`. -/
noncomputable def createRandomGenerator (seed : ℝ) : ℝ → ℝ → ℝ → ℝ :=
  fun min max seedOffset =>
    let x := Real.sin (seed + seedOffset) * 10000
    min + (x - (⌊x⌋ : ℝ)) * (max - min)

/-- The fractional part `x - Math.floor(x)` is `Int.fract`. -/
theorem createRandomGenerator_eq_fract (seed min max seedOffset : ℝ) :
    createRandomGenerator seed min max seedOffset =
      min + Int.fract (Real.sin (seed + seedOffset) * 10000) * (max - min) := rfl

/-- Range of the seeded generator: for `min < max` the result lies in `[min, max)`. -/
theorem createRandomGenerator_mem (seed min max seedOffset : ℝ) (h : min < max) :
    min ≤ createRandomGenerator seed min max seedOffset ∧
      createRandomGenerator seed min max seedOffset < max := by
  rw [createRandomGenerator_eq_fract]
  have h0 : (0 : ℝ) ≤ Int.fract (Real.sin (seed + seedOffset) * 10000) :=
    Int.fract_nonneg _
  have h1 : Int.fract (Real.sin (seed + seedOffset) * 10000) < 1 :=
    Int.fract_lt_one _
  constructor
  · nlinarith
  · nlinarith

/-- Lower bound of the seeded generator for `min ≤ max`. -/
theorem createRandomGenerator_le (seed min max seedOffset : ℝ) (h : min ≤ max) :
    min ≤ createRandomGenerator seed min max seedOffset := by
  rw [createRandomGenerator_eq_fract]
  have h0 : (0 : ℝ) ≤ Int.fract (Real.sin (seed + seedOffset) * 10000) :=
    Int.fract_nonneg _
  nlinarith

/-- C2: `random(min, max, offset)` built from a seed is a pure function of
`(seed, offset)` — the embedding is a function, and the source closure reads
only its captured `seed` and its arguments, no hidden counter or clock — and
for `min < max` its value lies in the half-open interval `[min, max)`. -/
theorem claimC2_random_pure_and_in_range
    (seed min max seedOffset : ℝ) (h : min < max) :
    createRandomGenerator seed min max seedOffset =
        createRandomGenerator seed min max seedOffset ∧
      min ≤ createRandomGenerator seed min max seedOffset ∧
      createRandomGenerator seed min max seedOffset < max := by
  refine ⟨rfl, ?_, ?_⟩
  · exact (createRandomGenerator_mem seed min max seedOffset h).1
  · exact (createRandomGenerator_mem seed min max seedOffset h).2

/-- Witness for C2 at `seed = 0`, `offset = 0`, `min = 0`, `max = 1`. -/
theorem claimC2_random_pure_and_in_range_witness :
    (0 : ℝ) ≤ createRandomGenerator 0 0 1 0 ∧ createRandomGenerator 0 0 1 0 < 1 :=
  (claimC2_random_pure_and_in_range 0 0 1 0 (by norm_num)).2

/-- The props of the `Flower` component (flower-scene.tsx, `FlowerProps`),
restricted to the fields that the geometry and wind code reads. -/
structure FlowerProps where
  petalCount : ℕ
  petalLength : ℝ
  petalWidth : ℝ
  stemHeight : ℝ
  petalColor : String
  centerColor : String
  stemColor : String
  seed : ℝ

/-- The geometric parameters of one petal mesh: its rotation `angle` around
the vertical axis, its `length` and `width`, and its `bend` off the
horizontal plane (flower-scene.tsx, lines 255-267). -/
structure PetalSpec where
  angle : ℝ
  length : ℝ
  width : ℝ
  bend : ℝ

/-- Embeds one iteration of the petal loop in the `petals` `useMemo` of
`Flower` (flower-scene.tsx, lines 252-274): `angle = (i / petalCount) * Math.PI * 2`,
`petalSeed = seed + i`, `length = petalLength * (0.9 + random(0, 0.2, petalSeed))`,
`width = petalWidth * (0.9 + random(0, 0.2, petalSeed + 0.1))`,
`baseBend = random(0.1, 0.3, petalSeed + 0.2)`,
`bendVariance = random(-0.1, 0.1, petalSeed + i * 0.5)`,
`bend = Math.max(0.05, baseBend + bendVariance)`. -/
noncomputable def petalSpec (p : FlowerProps) (i : ℕ) : PetalSpec :=
  let random := createRandomGenerator p.seed
  let angle := ((i : ℝ) / (p.petalCount : ℝ)) * Real.pi * 2
  let petalSeed := p.seed + (i : ℝ)
  let length := p.petalLength * (0.9 + random 0 0.2 petalSeed)
  let width := p.petalWidth * (0.9 + random 0 0.2 (petalSeed + 0.1))
  let baseBend := random 0.1 0.3 (petalSeed + 0.2)
  let bendVariance := random (-0.1) 0.1 (petalSeed + (i : ℝ) * 0.5)
  let bend := max 0.05 (baseBend + bendVariance)
  ⟨angle, length, width, bend⟩

/-- The petal layout: the loop `for (let i = 0; i < petalCount; i++)`
produces the list of petal specs in index order. -/
noncomputable def petalSpecs (p : FlowerProps) : List PetalSpec :=
  (List.range p.petalCount).map (petalSpec p)

/-- C1: the petal layout is a pure function of
`(petalCount, petalLength, petalWidth, seed)`: two flower instances agreeing
on those four fields (colors, stem height and everything else free) assemble
identical ordered sequences of (angle, length, width, bend) values. -/
theorem claimC1_layout_deterministic (p q : FlowerProps)
    (hc : p.petalCount = q.petalCount) (hl : p.petalLength = q.petalLength)
    (hw : p.petalWidth = q.petalWidth) (hs : p.seed = q.seed) :
    petalSpecs p = petalSpecs q := by
  unfold petalSpecs petalSpec
  rw [hc, hl, hw, hs]

/-- Witness for C1: two instances differing in stem height and all colors
but agreeing on the four geometry inputs have equal layouts. -/
theorem claimC1_layout_deterministic_witness :
    petalSpecs ⟨8, 1, 0.5, 3, "#ff6b6b", "#feca57", "#1dd1a1", 0.42⟩ =
      petalSpecs ⟨8, 1, 0.5, 7, "#111111", "#222222", "#333333", 0.42⟩ :=
  claimC1_layout_deterministic _ _ rfl rfl rfl rfl

/-- C3: for `petalCount = N ≥ 1` the layout has exactly `N` petals, the
petal at index `i` has angle `i / N * 2π`, and the angle sequence is
strictly increasing in the index (hence all angles are distinct, and each
lies in `[0, 2π)`). -/
theorem claimC3_angles (p : FlowerProps) (hN : 1 ≤ p.petalCount) :
    (petalSpecs p).length = p.petalCount ∧
      (∀ i, ∀ h : i < (petalSpecs p).length,
        ((petalSpecs p).get ⟨i, h⟩).angle =
          (i : ℝ) / (p.petalCount : ℝ) * (2 * Real.pi)) ∧
      (∀ i j, ∀ hi : i < (petalSpecs p).length, ∀ hj : j < (petalSpecs p).length,
        i < j →
        ((petalSpecs p).get ⟨i, hi⟩).angle < ((petalSpecs p).get ⟨j, hj⟩).angle) ∧
      (∀ i, ∀ h : i < (petalSpecs p).length,
        0 ≤ ((petalSpecs p).get ⟨i, h⟩).angle ∧
          ((petalSpecs p).get ⟨i, h⟩).angle < 2 * Real.pi) := by
  have hlen : (petalSpecs p).length = p.petalCount := by
    simp [petalSpecs]
  have hget : ∀ i, ∀ h : i < (petalSpecs p).length,
      (petalSpecs p).get ⟨i, h⟩ = petalSpec p i := by
    intro i h
    simp [petalSpecs]
  have hangle : ∀ i, (petalSpec p i).angle = (i : ℝ) / (p.petalCount : ℝ) * (2 * Real.pi) := by
    intro i
    show ((i : ℝ) / (p.petalCount : ℝ)) * Real.pi * 2 = _
    ring
  have hNpos : (0 : ℝ) < (p.petalCount : ℝ) := by
    exact_mod_cast Nat.lt_of_lt_of_le Nat.zero_lt_one hN
  refine ⟨hlen, ?_, ?_, ?_⟩
  · intro i h
    rw [hget i h, hangle i]
  · intro i j hi hj hij
    rw [hget i hi, hget j hj, hangle i, hangle j]
    have hlt : (i : ℝ) / (p.petalCount : ℝ) < (j : ℝ) / (p.petalCount : ℝ) := by
      gcongr
    have h2pi : (0 : ℝ) < 2 * Real.pi := by positivity
    exact mul_lt_mul_of_pos_right hlt h2pi
  · intro i h
    rw [hget i h, hangle i]
    have hiN : (i : ℝ) < (p.petalCount : ℝ) := by
      exact_mod_cast hlen ▸ h
    have h2pi : (0 : ℝ) < 2 * Real.pi := by positivity
    constructor
    · positivity
    · have : (i : ℝ) / (p.petalCount : ℝ) < 1 := by
        rw [div_lt_one hNpos]; exact hiN
      nlinarith

/-- Witness for C3 at `petalCount = 3`. -/
theorem claimC3_angles_witness :
    (petalSpecs ⟨3, 1, 0.5, 3, "a", "b", "c", 0⟩).length = 3 :=
  (claimC3_angles ⟨3, 1, 0.5, 3, "a", "b", "c", 0⟩ (by norm_num)).1

/-- The per-instance wind parameters (flower-scene.tsx, `windParams`). -/
structure WindParams where
  speed : ℝ
  strength : ℝ
  turbulence : ℝ
  direction : ℝ

/-- Embeds the `windParams` `useMemo` of `Flower` (flower-scene.tsx, lines
242-249): `speed = random(0.5, 1.5, 42)`, `strength = random(0.05, 0.15, 13)`,
`turbulence = random(0.1, 0.3, 27)`, `direction = random(0, Math.PI * 2, 99)`. -/
noncomputable def mkWindParams (seed : ℝ) : WindParams :=
  let random := createRandomGenerator seed
  { speed := random 0.5 1.5 42
    strength := random 0.05 0.15 13
    turbulence := random 0.1 0.3 27
    direction := random 0 (Real.pi * 2) 99 }

/-- Embeds `windX = Math.sin(time * windParams.speed) * windParams.strength`
(flower-scene.tsx, line 283). -/
noncomputable def windX (w : WindParams) (time : ℝ) : ℝ :=
  Real.sin (time * w.speed) * w.strength

/-- Embeds `windZ = Math.cos(time * windParams.speed + 0.3) * windParams.strength * 0.7`
(flower-scene.tsx, line 284). -/
noncomputable def windZ (w : WindParams) (time : ℝ) : ℝ :=
  Real.cos (time * w.speed + 0.3) * w.strength * 0.7

/-- Embeds `turbulenceX = Math.sin(time * 2.5 * windParams.speed) * windParams.turbulence * 0.05`
(flower-scene.tsx, line 287). -/
noncomputable def turbulenceX (w : WindParams) (time : ℝ) : ℝ :=
  Real.sin (time * 2.5 * w.speed) * w.turbulence * 0.05

/-- Embeds `turbulenceZ = Math.cos(time * 2.7 * windParams.speed) * windParams.turbulence * 0.04`
(flower-scene.tsx, line 288). -/
noncomputable def turbulenceZ (w : WindParams) (time : ℝ) : ℝ :=
  Real.cos (time * 2.7 * w.speed) * w.turbulence * 0.04

/-- Embeds `directedWindX = (windX + turbulenceX) * Math.cos(windParams.direction)`
(flower-scene.tsx, line 291). -/
noncomputable def directedWindX (w : WindParams) (time : ℝ) : ℝ :=
  (windX w time + turbulenceX w time) * Real.cos w.direction

/-- Embeds `directedWindZ = (windZ + turbulenceZ) * Math.sin(windParams.direction)`
(flower-scene.tsx, line 292). -/
noncomputable def directedWindZ (w : WindParams) (time : ℝ) : ℝ :=
  (windZ w time + turbulenceZ w time) * Real.sin w.direction

/-- Seed-derived wind strength is nonnegative (it lies in `[0.05, 0.15)`). -/
theorem mkWindParams_strength_nonneg (seed : ℝ) : 0 ≤ (mkWindParams seed).strength := by
  have h := createRandomGenerator_le seed 0.05 0.15 13 (by norm_num)
  have : (mkWindParams seed).strength = createRandomGenerator seed 0.05 0.15 13 := rfl
  linarith [this ▸ h]

/-- Seed-derived wind turbulence is nonnegative (it lies in `[0.1, 0.3)`). -/
theorem mkWindParams_turbulence_nonneg (seed : ℝ) : 0 ≤ (mkWindParams seed).turbulence := by
  have h := createRandomGenerator_le seed 0.1 0.3 27 (by norm_num)
  have : (mkWindParams seed).turbulence = createRandomGenerator seed 0.1 0.3 27 := rfl
  linarith [this ▸ h]

/-- A product with a factor of absolute value at most one keeps any bound. -/
theorem abs_mul_factor_le (x c d : ℝ) (hx : |x| ≤ c) (hd : |d| ≤ 1) : |x * d| ≤ c := by
  rw [abs_mul]
  nlinarith [abs_nonneg x, abs_nonneg d]

/-- A sine or cosine value times a nonnegative factor is bounded by that factor. -/
theorem abs_trig_mul_le (a b : ℝ) (ha : |a| ≤ 1) (hb : 0 ≤ b) : |a * b| ≤ b := by
  rw [abs_mul, abs_of_nonneg hb]
  nlinarith [abs_nonneg a]

/-- Bound on the directed wind components for nonnegative strength and
turbulence: each stays within `strength + turbulence` in absolute value. -/
theorem directedWind_bounded (w : WindParams) (time : ℝ)
    (hs : 0 ≤ w.strength) (ht : 0 ≤ w.turbulence) :
    |directedWindX w time| ≤ w.strength + w.turbulence ∧
      |directedWindZ w time| ≤ w.strength + w.turbulence := by
  have hsin : ∀ x : ℝ, |Real.sin x| ≤ 1 := fun x =>
    abs_le.mpr ⟨Real.neg_one_le_sin x, Real.sin_le_one x⟩
  have hcos : ∀ x : ℝ, |Real.cos x| ≤ 1 := fun x =>
    abs_le.mpr ⟨Real.neg_one_le_cos x, Real.cos_le_one x⟩
  have hX1 : |windX w time| ≤ w.strength :=
    abs_trig_mul_le _ _ (hsin (time * w.speed)) hs
  have hX2 : |turbulenceX w time| ≤ w.turbulence := by
    have h : |Real.sin (time * 2.5 * w.speed) * w.turbulence| ≤ w.turbulence :=
      abs_trig_mul_le _ _ (hsin (time * 2.5 * w.speed)) ht
    exact abs_mul_factor_le _ _ _ h (by rw [abs_of_nonneg]; norm_num; norm_num)
  have hZ1 : |windZ w time| ≤ w.strength := by
    have h : |Real.cos (time * w.speed + 0.3) * w.strength| ≤ w.strength :=
      abs_trig_mul_le _ _ (hcos (time * w.speed + 0.3)) hs
    exact abs_mul_factor_le _ _ _ h (by rw [abs_of_nonneg]; norm_num; norm_num)
  have hZ2 : |turbulenceZ w time| ≤ w.turbulence := by
    have h : |Real.cos (time * 2.7 * w.speed) * w.turbulence| ≤ w.turbulence :=
      abs_trig_mul_le _ _ (hcos (time * 2.7 * w.speed)) ht
    exact abs_mul_factor_le _ _ _ h (by rw [abs_of_nonneg]; norm_num; norm_num)
  constructor
  · refine abs_mul_factor_le _ _ _ ?_ (hcos w.direction)
    calc |windX w time + turbulenceX w time|
        ≤ |windX w time| + |turbulenceX w time| := abs_add _ _
      _ ≤ w.strength + w.turbulence := add_le_add hX1 hX2
  · refine abs_mul_factor_le _ _ _ ?_ (hsin w.direction)
    calc |windZ w time + turbulenceZ w time|
        ≤ |windZ w time| + |turbulenceZ w time| := abs_add _ _
      _ ≤ w.strength + w.turbulence := add_le_add hZ1 hZ2

/-- C4: for seed-derived WindParameters the per-frame wind terms have the
closed forms `windX = sin(t·speed)·strength` and
`windZ = cos(t·speed + 0.3)·strength·0.7`; at `t = 0` the value
`windX(0) = sin(0)·strength = 0`; and for every elapsed time `t` each
directed output component is bounded by `strength + turbulence`. -/
theorem claimC4_wind (seed : ℝ) :
    (∀ t, windX (mkWindParams seed) t =
        Real.sin (t * (mkWindParams seed).speed) * (mkWindParams seed).strength) ∧
      (∀ t, windZ (mkWindParams seed) t =
        Real.cos (t * (mkWindParams seed).speed + 0.3) * (mkWindParams seed).strength * 0.7) ∧
      windX (mkWindParams seed) 0 = 0 ∧
      (∀ t, |directedWindX (mkWindParams seed) t| ≤
          (mkWindParams seed).strength + (mkWindParams seed).turbulence ∧
        |directedWindZ (mkWindParams seed) t| ≤
          (mkWindParams seed).strength + (mkWindParams seed).turbulence) := by
  refine ⟨fun t => rfl, fun t => rfl, ?_, fun t => ?_⟩
  · rw [windX, zero_mul, Real.sin_zero, zero_mul]
  · exact directedWind_bounded (mkWindParams seed) t
      (mkWindParams_strength_nonneg seed) (mkWindParams_turbulence_nonneg seed)

/-- Embeds the vertical adjustment in `PlantedFlowerWithLabel`
(flower-scene.tsx, lines 169-179): starting from the record's y coordinate,
`if (props.stemHeight > 4) position[1] = -Math.max(0, (props.stemHeight - 4) * 0.15)`.
The rule replaces the y coordinate; it does not add to it. -/
def plantedFlowerLabelY (stemHeight y : ℚ) : ℚ :=
  if stemHeight > 4 then -(max 0 ((stemHeight - 4) * 0.15)) else y

/-- Embeds the plant-time adjustment in `plantFlower`
(flower-storage.ts, lines 51-59): starting from the submitted y coordinate,
`if (flowerData.stemHeight > 4) position[1] = -Math.max(0, (flowerData.stemHeight - 4) * 0.15)`. -/
def plantFlowerY (stemHeight y : ℚ) : ℚ :=
  if stemHeight > 4 then -(max 0 ((stemHeight - 4) * 0.15)) else y

/-- Embeds `singleFlowerYOffset` in `FlowerScene` (flower-scene.tsx, line 459):
`-Math.max(0.5, stemHeight * 0.25)`, the y offset of the flower group in the
single-flower view. -/
def singleFlowerYOffset (stemHeight : ℚ) : ℚ :=
  -(max 0.5 (stemHeight * 0.25))

/-- Counterexample to C5: at `stemHeight = 3` the single-flower view offsets
the plant by `-0.75` while the field view leaves a ground-level plant at `0`,
so the two views do not compute the same vertical offset. -/
theorem claimC5_counterexample :
    singleFlowerYOffset 3 ≠ plantedFlowerLabelY 3 0 := by
  norm_num [singleFlowerYOffset, plantedFlowerLabelY]

/-- C5 (amended): the storage layer (`plantFlower`) and the field view
(`PlantedFlowerWithLabel`) apply the same replacement rule — for
`stemHeight > 4` set `y := -max(0, (stemHeight-4)*0.15)`, otherwise keep `y`
— and because the rule sets rather than offsets, the field view re-applying
it to a plant-time-adjusted position is idempotent (the duplication never
changes the stored position).  The single-flower view, however, uses the
different offset `-max(0.5, stemHeight*0.25)`. -/
theorem claimC5_field_rule_agreement (stemHeight y : ℚ) :
    plantedFlowerLabelY stemHeight y = plantFlowerY stemHeight y ∧
      plantedFlowerLabelY stemHeight (plantFlowerY stemHeight y) =
        plantFlowerY stemHeight y := by
  unfold plantedFlowerLabelY plantFlowerY
  by_cases h : stemHeight > 4
  · simp [h]
  · simp [h]

/-- C6: a planted flower positioned at ground level (`y = 0`) ends up with
vertical coordinate `0` when `stemHeight ≤ 4` and `-(stemHeight - 4) * 0.15`
when `stemHeight > 4`; in particular `stemHeight = 6` yields `-0.3`. -/
theorem claimC6_vertical_offset (stemHeight : ℚ) :
    (stemHeight ≤ 4 → plantedFlowerLabelY stemHeight 0 = 0) ∧
      (stemHeight > 4 → plantedFlowerLabelY stemHeight 0 = -((stemHeight - 4) * 0.15)) ∧
      plantedFlowerLabelY 6 0 = -0.3 := by
  refine ⟨fun h => ?_, fun h => ?_, ?_⟩
  · rw [plantedFlowerLabelY, if_neg (not_lt.mpr h)]
  · rw [plantedFlowerLabelY, if_pos h, max_eq_right]
    nlinarith
  · norm_num [plantedFlowerLabelY]

/-- Witness for C6 at `stemHeight = 3` and `stemHeight = 6`. -/
theorem claimC6_vertical_offset_witness :
    plantedFlowerLabelY 3 0 = 0 ∧ plantedFlowerLabelY 6 0 = -((6 - 4) * 0.15) :=
  ⟨(claimC6_vertical_offset 3).1 (by norm_num),
   (claimC6_vertical_offset 6).2.1 (by norm_num)⟩

/-- JavaScript truthiness of the `lastWatered` snapshot field: `null`,
`undefined` and the empty string are falsy. -/
def lastWateredTruthy : Option String → Bool
  | none => false
  | some s => !(s == "")

/-- Embeds one run of the watering `useEffect` in `PlantedFlowerWithLabel`
(flower-scene.tsx, lines 182-187): given the current `lastWateredTime` state
and the observed `props.lastWatered`, if
`props.lastWatered && props.lastWatered !== lastWateredTime` then the state
becomes the new value and `setShowWaterAnimation(true)` fires; otherwise
nothing happens.  Returns the new state and whether the effect fired. -/
def waterEffectStep (lastWateredTime lastWatered : Option String) :
    Option String × Bool :=
  if lastWateredTruthy lastWatered ∧ lastWatered ≠ lastWateredTime then
    (lastWatered, true)
  else
    (lastWateredTime, false)

/-- Folds `waterEffectStep` over a sequence of observed snapshots, recording
for each observation whether the one-shot effect fired.  The initial state is
the mount-time `props.lastWatered`
(`useState<number | undefined>(props.lastWatered)`), and the effect also runs
on the mount observation itself. -/
def waterEffectFires : Option String → List (Option String) → List Bool
  | _, [] => []
  | st, lw :: rest =>
      let r := waterEffectStep st lw
      r.2 :: waterEffectFires r.1 rest

/-- C7: for observed snapshots `null → T1 → T1 → T2` (with `T1`, `T2`
non-empty and `T2 ≠ T1`, mounting at the `null` snapshot) the one-shot effect
fires exactly at the `null → T1` and `T1 → T2` transitions: the fire sequence
is `[false, true, false, true]` — once per change of `lastWatered`, never for
the duration the value holds. -/
theorem claimC7_watering_edge_trigger (T1 T2 : String)
    (h1 : T1 ≠ "") (h2 : T2 ≠ "") (h12 : T2 ≠ T1) :
    waterEffectFires none [none, some T1, some T1, some T2] =
      [false, true, false, true] := by
  simp [waterEffectFires, waterEffectStep, lastWateredTruthy, h1, h2, h12]

/-- Witness for C7 with two concrete ISO timestamps. -/
theorem claimC7_watering_edge_trigger_witness :
    waterEffectFires none
        [none, some "2024-05-01T10:00:00Z", some "2024-05-01T10:00:00Z",
          some "2024-05-02T09:00:00Z"] =
      [false, true, false, true] :=
  claimC7_watering_edge_trigger "2024-05-01T10:00:00Z" "2024-05-02T09:00:00Z"
    (by decide) (by decide) (by decide)

/-- A raw row as returned by the store before normalization: `position` may
be missing or an array of any length, `plantedAt` may be missing. -/
structure RawFlower where
  id : String
  username : String
  petalCount : ℕ
  petalLength : ℚ
  petalWidth : ℚ
  stemHeight : ℚ
  petalColor : String
  centerColor : String
  stemColor : String
  seed : ℚ
  position : Option (List ℚ)
  plantedAt : Option String
  lastWatered : Option String
  waterCount : Option ℕ
deriving DecidableEq

/-- The `PlantedFlower` interface of flower-storage.ts after normalization:
`position` is a 3-component coordinate and `plantedAt` a string. -/
structure PlantedFlower where
  id : String
  username : String
  petalCount : ℕ
  petalLength : ℚ
  petalWidth : ℚ
  stemHeight : ℚ
  petalColor : String
  centerColor : String
  stemColor : String
  seed : ℚ
  position : ℚ × ℚ × ℚ
  plantedAt : String
  lastWatered : Option String
  waterCount : Option ℕ
deriving DecidableEq

/-- Embeds `Array.isArray(flower.position) && flower.position.length === 3
? flower.position : [0, 0, 0]` — the position guard shared by
`getPlantedFlowers`, `plantFlower` and `getUserFlowers` in flower-storage.ts. -/
def normalizePosition : Option (List ℚ) → ℚ × ℚ × ℚ
  | some [x, y, z] => (x, y, z)
  | _ => (0, 0, 0)

/-- Embeds `new Date(0).toISOString()` — the epoch timestamp default. -/
def epochISO : String := "1970-01-01T00:00:00.000Z"

/-- Embeds `flower.plantedAt || new Date(0).toISOString()` — JavaScript `||`
replaces both a missing and an empty-string `plantedAt`. -/
def normalizePlantedAt : Option String → String
  | none => epochISO
  | some s => if s = "" then epochISO else s

/-- The per-record normalization in `getPlantedFlowers` / `getUserFlowers`
(flower-storage.ts, lines 36-44 and 111-119): spread the row, guard
`position`, default `plantedAt`, keep `lastWatered` as stored. -/
def normalizeFlower (f : RawFlower) : PlantedFlower :=
  { id := f.id
    username := f.username
    petalCount := f.petalCount
    petalLength := f.petalLength
    petalWidth := f.petalWidth
    stemHeight := f.stemHeight
    petalColor := f.petalColor
    centerColor := f.centerColor
    stemColor := f.stemColor
    seed := f.seed
    position := normalizePosition f.position
    plantedAt := normalizePlantedAt f.plantedAt
    lastWatered := f.lastWatered
    waterCount := f.waterCount }

/-- A supabase query response: `{ data, error }`. -/
structure SupabaseResponse where
  data : Option (List RawFlower)
  error : Option String

/-- Embeds `getPlantedFlowers` (flower-storage.ts, lines 25-45): on error
log and return `[]`; otherwise `(data || []).map(normalization)`. -/
def getPlantedFlowers (r : SupabaseResponse) : List PlantedFlower :=
  match r.error with
  | some _ => []
  | none => (r.data.getD []).map normalizeFlower

/-- C9: on a successful fetch, each record is normalized independently
(`map`), a well-formed 3-element `position` passes through unchanged, any
other `position` value becomes the origin, a missing `plantedAt` becomes the
epoch timestamp, a well-formed `plantedAt` passes through, and the identity
fields of the record are untouched. -/
theorem claimC9_record_normalization (f : RawFlower) (rows : List RawFlower) :
    (getPlantedFlowers ⟨some rows, none⟩ = rows.map normalizeFlower) ∧
      (∀ x y z, f.position = some [x, y, z] → (normalizeFlower f).position = (x, y, z)) ∧
      ((∀ l, f.position = some l → l.length ≠ 3) → (normalizeFlower f).position = (0, 0, 0)) ∧
      (f.position = none → (normalizeFlower f).position = (0, 0, 0)) ∧
      (f.plantedAt = none → (normalizeFlower f).plantedAt = epochISO) ∧
      (∀ s, f.plantedAt = some s → s ≠ "" → (normalizeFlower f).plantedAt = s) ∧
      (normalizeFlower f).id = f.id ∧
      (normalizeFlower f).seed = f.seed ∧
      (normalizeFlower f).lastWatered = f.lastWatered := by
  refine ⟨rfl, ?_, ?_, ?_, ?_, ?_, rfl, rfl, rfl⟩
  · intro x y z hp
    simp [normalizeFlower, normalizePosition, hp]
  · intro hbad
    rcases hp : f.position with _ | l
    · simp [normalizeFlower, normalizePosition, hp]
    · have hlen := hbad l hp
      match l, hlen with
      | [], _ => simp [normalizeFlower, normalizePosition, hp]
      | [a], _ => simp [normalizeFlower, normalizePosition, hp]
      | [a, b], _ => simp [normalizeFlower, normalizePosition, hp]
      | [a, b, c], h => exact absurd rfl h
      | a :: b :: c :: d :: rest, _ => simp [normalizeFlower, normalizePosition, hp]
  · intro hp
    simp [normalizeFlower, normalizePosition, hp]
  · intro hp
    simp [normalizeFlower, normalizePlantedAt, hp]
  · intro s hp hs
    simp [normalizeFlower, normalizePlantedAt, hp, hs]

/-- Witness for C9: a record with a malformed 2-element position and missing
`plantedAt` is normalized to the origin and the epoch, with its id intact. -/
theorem claimC9_record_normalization_witness :
    (normalizeFlower
          ⟨"f1", "ada", 8, 1, 1/2, 3, "#ff6b6b", "#feca57", "#1dd1a1", 42,
            some [1, 2], none, none, none⟩).position = (0, 0, 0) ∧
      (normalizeFlower
          ⟨"f1", "ada", 8, 1, 1/2, 3, "#ff6b6b", "#feca57", "#1dd1a1", 42,
            some [1, 2], none, none, none⟩).plantedAt = epochISO := by
  refine ⟨?_, ?_⟩
  · exact (claimC9_record_normalization
        ⟨"f1", "ada", 8, 1, 1/2, 3, "#ff6b6b", "#feca57", "#1dd1a1", 42,
          some [1, 2], none, none, none⟩ []).2.2.1
      (by intro l hl; cases hl; decide)
  · exact (claimC9_record_normalization
        ⟨"f1", "ada", 8, 1, 1/2, 3, "#ff6b6b", "#feca57", "#1dd1a1", 42,
          some [1, 2], none, none, none⟩ []).2.2.2.2.1 rfl

/-- C10: when the store reports an error, `getPlantedFlowers` returns the
empty list — the very value a successful fetch of an empty garden returns,
so the two outcomes are indistinguishable to the caller — and a successful
fetch yields exactly one entry per stored record. -/
theorem claimC10_error_swallowed (e : String) (rows : Option (List RawFlower))
    (rows2 : List RawFlower) :
    getPlantedFlowers ⟨rows, some e⟩ = [] ∧
      getPlantedFlowers ⟨rows, some e⟩ = getPlantedFlowers ⟨some [], none⟩ ∧
      (getPlantedFlowers ⟨some rows2, none⟩).length = rows2.length := by
  refine ⟨rfl, rfl, ?_⟩
  simp [getPlantedFlowers]

/-- Embeds the `wateredFlowerPosition` `useMemo` of `CameraController`
(flower-scene.tsx, lines 360-364):
`if (!wateredFlowerId || !plantedFlowers.length) return null;
const wateredFlower = plantedFlowers.find((flower) => flower.id === wateredFlowerId);
return wateredFlower ? wateredFlower.position : null`. -/
def wateredFlowerPosition (wateredFlowerId : Option String)
    (plantedFlowers : List PlantedFlower) : Option (ℚ × ℚ × ℚ) :=
  match wateredFlowerId with
  | none => none
  | some wid =>
    if wid = "" ∨ plantedFlowers.length = 0 then none
    else (plantedFlowers.find? (fun flower => flower.id == wid)).map
      (fun flower => flower.position)

/-- The camera target set by `CameraController` in field mode
(flower-scene.tsx, lines 366-399): a resolved watered flower gives
`target = (x, y + 2, z)`; otherwise a just-planted position gives
`target = (x, y, z)`; otherwise the default garden framing `(0, 0, 0)`. -/
def fieldCameraTarget (focusedFlowerPosition : Option (ℚ × ℚ × ℚ))
    (wateredFlowerId : Option String)
    (plantedFlowers : List PlantedFlower) : ℚ × ℚ × ℚ :=
  match wateredFlowerPosition wateredFlowerId plantedFlowers with
  | some (x, y, z) => (x, y + 2, z)
  | none =>
    match focusedFlowerPosition with
    | some (x, y, z) => (x, y, z)
    | none => (0, 0, 0)

/-- C8: in field mode with a justWatered id (and no just-planted focus), if
the current flower set resolves the id to a flower at `(x, y, z)` the camera
target is `(x, y + 2, z)`; if no flower carries that id the lookup fails
silently and the target falls back to the default field framing `(0, 0, 0)`. -/
theorem claimC8_camera_focus (wid : String) (flowers : List PlantedFlower)
    (hw : wid ≠ "") :
    (∀ f, flowers.find? (fun flower => flower.id == wid) = some f →
        fieldCameraTarget none (some wid) flowers =
          (f.position.1, f.position.2.1 + 2, f.position.2.2)) ∧
      ((∀ g ∈ flowers, g.id ≠ wid) →
        fieldCameraTarget none (some wid) flowers = (0, 0, 0)) := by
  constructor
  · intro f hf
    have hne : flowers.length ≠ 0 := by
      intro h0
      rw [List.length_eq_zero.mp h0] at hf
      simp [List.find?] at hf
    have hpos : wateredFlowerPosition (some wid) flowers = some f.position := by
      rw [wateredFlowerPosition, if_neg (by simp [hw, hne]), hf]
      rfl
    rw [fieldCameraTarget, hpos]
  · intro hnone
    have hfind : flowers.find? (fun flower => flower.id == wid) = none := by
      rw [List.find?_eq_none]
      intro g hg
      simpa using hnone g hg
    have hpos : wateredFlowerPosition (some wid) flowers = none := by
      rw [wateredFlowerPosition]
      by_cases h0 : flowers.length = 0
      · rw [if_pos (Or.inr h0)]
      · rw [if_neg (by simp [hw, h0]), hfind]
        simp
    rw [fieldCameraTarget, hpos]

/-- Witness for C8: the set `[{id := "a", position := (1, 0, 2)}]` resolves
focus `"a"` to target `(1, 2, 2)` and focus `"missing"` to `(0, 0, 0)`. -/
theorem claimC8_camera_focus_witness :
    fieldCameraTarget none (some "a")
        [⟨"a", "ada", 8, 1, 1/2, 3, "#ff6b6b", "#feca57", "#1dd1a1", 42,
          (1, 0, 2), "2024-05-01T10:00:00Z", none, none⟩] = (1, 2, 2) ∧
      fieldCameraTarget none (some "missing")
        [⟨"a", "ada", 8, 1, 1/2, 3, "#ff6b6b", "#feca57", "#1dd1a1", 42,
          (1, 0, 2), "2024-05-01T10:00:00Z", none, none⟩] = (0, 0, 0) := by
  constructor
  · have h := (claimC8_camera_focus "a"
        [⟨"a", "ada", 8, 1, 1/2, 3, "#ff6b6b", "#feca57", "#1dd1a1", 42,
          (1, 0, 2), "2024-05-01T10:00:00Z", none, none⟩] (by decide)).1
      ⟨"a", "ada", 8, 1, 1/2, 3, "#ff6b6b", "#feca57", "#1dd1a1", 42,
        (1, 0, 2), "2024-05-01T10:00:00Z", none, none⟩ rfl
    simpa using h
  · exact (claimC8_camera_focus "missing"
        [⟨"a", "ada", 8, 1, 1/2, 3, "#ff6b6b", "#feca57", "#1dd1a1", 42,
          (1, 0, 2), "2024-05-01T10:00:00Z", none, none⟩] (by decide)).2
      (by decide)

end FlowerGarden
